import Mathlib

/-!
Shallow embedding of the `Raw-E/foundation` toolkit (the parts relevant to the
file-system change-monitoring pipeline, the registry, and `copy_file`),
together with theorems settling the specification claims.

Modelling conventions:
* A filesystem snapshot is a predicate `String → Bool` (which paths exist);
  for `copy_file` it is `String → Option String` (path to file content).
* Python `Path(str(x))` is modelled as the identity on the path string.
* Python dictionaries are association lists where insertion conses in front,
  so lookup finds the most recent binding (dict-overwrite semantics).
* A raised exception is modelled as `none` / an `Except.error` value.
-/

namespace Foundation

/-- The change kinds produced by the `watchfiles` primitive. -/
inductive Change where
  | added
  | modified
  | deleted
deriving DecidableEq, Repr

/-- `FileSystemObserverConfiguration` from
`services/file_system_monitoring/file_system_observer.py`: directories to
watch, include/exclude glob patterns, optional lock-file string. -/
structure FileSystemObserverConfiguration where
  directories_to_observe : List String
  include_patterns : List String
  exclude_patterns : List String
  processing_lock_file : Option String
deriving DecidableEq, Repr

/-- The constructor argument `directories_to_observe : Union[str, Path, Sequence[...]]`:
either a single path(-string) or a sequence of them. -/
inductive PathsInput where
  | single (p : String)
  | several (ps : List String)

/-- `FileSystemObserverConfiguration.__init__`: a single path is wrapped into a
one-element list, each directory is passed through `Path(str(...))` (modelled as
the identity on the path string), and the patterns are stripped. -/
def mkFileSystemObserverConfiguration (dirs : PathsInput)
    (incl excl : List String) (lock : Option String) :
    FileSystemObserverConfiguration :=
  { directories_to_observe :=
      match dirs with
      | .single p => [p]
      | .several ps => ps
    include_patterns := incl.map String.trim
    exclude_patterns := excl.map String.trim
    processing_lock_file := lock }

/-- `pathlib`'s `directory / name`: if `name` is absolute it replaces the
directory, otherwise the two are joined with a separator. -/
def pathJoin (dir name : String) : String :=
  match name.data with
  | [] => dir ++ "/" ++ name
  | c :: _ => if c = '/' then name else dir ++ "/" ++ name

/-- `FileSystemObserver.is_lock_file_present`: false when no lock-file string
is configured (Python falsiness: `None` or the empty string), otherwise true
iff `directory / lock` exists for some watched directory. -/
def is_lock_file_present (config : FileSystemObserverConfiguration)
    (fs : String → Bool) : Bool :=
  match config.processing_lock_file with
  | none => false
  | some lock =>
      if lock = "" then false
      else config.directories_to_observe.any (fun directory => fs (pathJoin directory lock))

/-- The per-event condition of the set comprehension in
`FileSystemChangeProcessor.process_changes`: the responder predicate holds,
the event path differs from `config.processing_lock_file` (a `str != Optional[str]`
comparison, true whenever the configured value is `None`), and no lock file is
present. -/
def shouldRetain (config : FileSystemObserverConfiguration)
    (fs : String → Bool) (should_process_change : String → Bool)
    (e : Change × String) : Bool :=
  should_process_change e.2
    && decide (some e.2 ≠ config.processing_lock_file)
    && !(is_lock_file_present config fs)

/-- The `changes_to_process` set built by one iteration of
`FileSystemChangeProcessor.process_changes`. -/
def changes_to_process (config : FileSystemObserverConfiguration)
    (fs : String → Bool) (should_process_change : String → Bool)
    (changes : Finset (Change × String)) : Finset (Change × String) :=
  changes.filter (fun e => shouldRetain config fs should_process_change e = true)

/-- One iteration of `process_changes`: if the retained set is non-empty the
responder handler is invoked with it (`some retained`), otherwise it is not
invoked (`none`). -/
def process_changes_batch (config : FileSystemObserverConfiguration)
    (fs : String → Bool) (should_process_change : String → Bool)
    (changes : Finset (Change × String)) : Option (Finset (Change × String)) :=
  let cs := changes_to_process config fs should_process_change changes
  if cs = ∅ then none else some cs

/-- Python-dict lookup on an association list where insertion conses in
front: the first (most recent) binding wins. -/
def lookupA {α : Type} : List (String × α) → String → Option α
  | [], _ => none
  | (k, v) :: rest, key => if key = k then some v else lookupA rest key

/-- The mutable class-level state of `services/registering/registry.py`'s
`Registry`: `_data` maps identifiers to stored objects, `_aliases` maps
aliases to identifiers. -/
structure RegistryState (α : Type) where
  data : List (String × α)
  aliases : List (String × String)

/-- Python truthiness of an `Optional[str]`: `None` and `""` are falsy. -/
def truthyStr : Option String → Bool
  | none => false
  | some s => !s.isEmpty

/-- `Registry.register_data`: stores `d` under the freshly generated
identifier `data_id` (the `str(uuid.uuid4())` value is passed in explicitly),
records `aliasOpt ↦ data_id` when the alias is truthy, and returns the
identifier together with the new state. -/
def register_data {α : Type} (st : RegistryState α) (data_id : String)
    (d : α) (aliasOpt : Option String) : String × RegistryState α :=
  if truthyStr aliasOpt then
    (data_id, ⟨(data_id, d) :: st.data, (aliasOpt.getD "", data_id) :: st.aliases⟩)
  else
    (data_id, ⟨(data_id, d) :: st.data, st.aliases⟩)

/-- `Registry.get_data`: first redirect through `_aliases` when the given
string is a registered alias, then look the result up in `_data`; the
`KeyError` raised on a missing key is modelled as `none`. -/
def get_data {α : Type} (st : RegistryState α) (identifier : String) : Option α :=
  let data_id :=
    match lookupA st.aliases identifier with
    | some redirected => redirected
    | none => identifier
  lookupA st.data data_id

/-- The exceptions `copy_file` can raise before attempting the copy. -/
inductive CopyFileError where
  | fileNotFoundError
  | fileExistsError
deriving DecidableEq, Repr

/-- `universal_utilities/filesystem_related/general_filesystem_utilities.py`'s
`copy_file` over a content-mapping filesystem: raises `FileNotFoundError` when
the source does not exist, `FileExistsError` when the destination exists and
`overwrite` is false, and otherwise copies the source content to the
destination (the `except` clause only logs and re-raises, so errors reach the
caller unchanged). -/
def copy_file (fs : String → Option String) (source_path destination_path : String)
    (overwrite : Bool) : Except CopyFileError (String → Option String) :=
  match fs source_path with
  | none => .error .fileNotFoundError
  | some content =>
      if (fs destination_path).isSome && !overwrite then
        .error .fileExistsError
      else
        .ok (fun p => if p = destination_path then some content else fs p)

/-! ## Theorems about the file-system monitoring pipeline -/

/-- Claim C1, counterexample: with the configuration watching `/tmp/proj`,
lock-file string `LOCK`, no lock file on disk and a responder accepting every
path, the batch event for `/tmp/proj/LOCK` is retained by `process_changes`
(the code compares the full event path against the configured lock-file
string, and `/tmp/proj/LOCK ≠ LOCK`), so the processed set is not
`{(modified, /tmp/proj/a.txt)}` as the claim demands. -/
theorem lock_event_retained_counterexample :
    (Change.modified, "/tmp/proj/LOCK") ∈
      changes_to_process
        (mkFileSystemObserverConfiguration (.single "/tmp/proj") [] [] (some "LOCK"))
        (fun _ => false) (fun _ => true)
        {(Change.modified, "/tmp/proj/a.txt"), (Change.modified, "/tmp/proj/LOCK")}
    ∧ changes_to_process
        (mkFileSystemObserverConfiguration (.single "/tmp/proj") [] [] (some "LOCK"))
        (fun _ => false) (fun _ => true)
        {(Change.modified, "/tmp/proj/a.txt"), (Change.modified, "/tmp/proj/LOCK")}
      ≠ {(Change.modified, "/tmp/proj/a.txt")} := by
  decide

/-- Claim C1, amended: an event is excluded by the lock-file comparison of
`process_changes` exactly when its full event-path string equals the
configured `processing_lock_file` string; such an event is never in the
retained set, whatever the responder predicate returns. (With a bare
lock-file name such as `LOCK`, the event `/tmp/proj/LOCK` is retained.) -/
theorem lock_path_exact_match_excluded
    (config : FileSystemObserverConfiguration) (fs : String → Bool)
    (should_process_change : String → Bool) (changes : Finset (Change × String))
    (c : Change) (p : String)
    (h : config.processing_lock_file = some p) :
    (c, p) ∉ changes_to_process config fs should_process_change changes := by
  intro hmem
  rw [changes_to_process, Finset.mem_filter] at hmem
  rcases hmem with ⟨-, hcond⟩
  rw [shouldRetain, h] at hcond
  simp at hcond

/-- Witness for the amended Claim C1: with the lock file configured as the
full path `/tmp/proj/LOCK`, that event is excluded even though the responder
accepts everything and no lock file is on disk. -/
theorem lock_path_exact_match_excluded_witness :
    (Change.modified, "/tmp/proj/LOCK") ∉
      changes_to_process
        (mkFileSystemObserverConfiguration (.single "/tmp/proj") [] [] (some "/tmp/proj/LOCK"))
        (fun _ => false) (fun _ => true)
        {(Change.modified, "/tmp/proj/a.txt"), (Change.modified, "/tmp/proj/LOCK")} :=
  lock_path_exact_match_excluded _ _ _ _ _ _ rfl

/-- Claim C2: when `is_lock_file_present` reports true while a batch is
filtered, the retained set is empty whatever the responder predicate says and
the handler is not invoked for that batch. -/
theorem lock_present_batch_not_processed
    (config : FileSystemObserverConfiguration) (fs : String → Bool)
    (should_process_change : String → Bool) (changes : Finset (Change × String))
    (h : is_lock_file_present config fs = true) :
    changes_to_process config fs should_process_change changes = ∅
    ∧ process_changes_batch config fs should_process_change changes = none := by
  have hempty : changes_to_process config fs should_process_change changes = ∅ := by
    ext e
    simp [changes_to_process, shouldRetain, h]
  exact ⟨hempty, by simp [process_changes_batch, hempty]⟩

/-- Witness for Claim C2: a concrete configuration whose lock file is on disk
yields an empty retained set and no handler invocation. -/
theorem lock_present_batch_not_processed_witness :
    changes_to_process
        (mkFileSystemObserverConfiguration (.single "/d") [] [] (some "LOCK"))
        (fun p => decide (p = "/d/LOCK")) (fun _ => true)
        {(Change.modified, "/d/a.txt")} = ∅
    ∧ process_changes_batch
        (mkFileSystemObserverConfiguration (.single "/d") [] [] (some "LOCK"))
        (fun p => decide (p = "/d/LOCK")) (fun _ => true)
        {(Change.modified, "/d/a.txt")} = none :=
  lock_present_batch_not_processed _ _ _ _ (by decide)

/-- Claim C4: `is_lock_file_present` is true iff a (truthy) lock-file name is
configured and the file `directory / name` exists for at least one watched
directory; in particular it is false whenever no lock-file name is
configured. -/
theorem is_lock_file_present_iff
    (config : FileSystemObserverConfiguration) (fs : String → Bool) :
    (is_lock_file_present config fs = true ↔
      ∃ lock, config.processing_lock_file = some lock ∧ lock ≠ "" ∧
        ∃ d ∈ config.directories_to_observe, fs (pathJoin d lock) = true)
    ∧ (config.processing_lock_file = none → is_lock_file_present config fs = false) := by
  constructor
  · rw [is_lock_file_present]
    cases hcfg : config.processing_lock_file with
    | none => simp
    | some lock =>
        by_cases hempty : lock = ""
        · simp [hempty]
        · simp [hempty, List.any_eq_true]
  · intro hnone
    rw [is_lock_file_present, hnone]

/-- Witness for Claim C4: the lock file `/d2/LOCK` exists in the second
watched directory, so `is_lock_file_present` is true; with no lock-file name
configured it is false on the same filesystem. -/
theorem is_lock_file_present_iff_witness :
    is_lock_file_present
        (mkFileSystemObserverConfiguration (.several ["/d1", "/d2"]) [] [] (some "LOCK"))
        (fun p => decide (p = "/d2/LOCK")) = true
    ∧ is_lock_file_present
        (mkFileSystemObserverConfiguration (.several ["/d1", "/d2"]) [] [] none)
        (fun p => decide (p = "/d2/LOCK")) = false :=
  ⟨(is_lock_file_present_iff _ _).1.mpr ⟨"LOCK", rfl, by decide, "/d2", by decide, by decide⟩,
   (is_lock_file_present_iff _ _).2 rfl⟩

/-- Claim C5: one iteration of `process_changes` invokes the handler iff the
retained set is non-empty; when invoked, the handler receives exactly the
retained set, which is a subset of the incoming batch, and never an empty
set. -/
theorem process_changes_dispatch_iff
    (config : FileSystemObserverConfiguration) (fs : String → Bool)
    (should_process_change : String → Bool) (changes : Finset (Change × String)) :
    changes_to_process config fs should_process_change changes ⊆ changes
    ∧ (changes_to_process config fs should_process_change changes ≠ ∅ →
        process_changes_batch config fs should_process_change changes =
          some (changes_to_process config fs should_process_change changes))
    ∧ (changes_to_process config fs should_process_change changes = ∅ →
        process_changes_batch config fs should_process_change changes = none) := by
  refine ⟨Finset.filter_subset _ _, ?_, ?_⟩
  · intro hne
    simp [process_changes_batch, hne]
  · intro he
    simp [process_changes_batch, he]

/-- Witness for Claim C5: a concretely non-empty retained set is dispatched
to the handler as-is. -/
theorem process_changes_dispatch_iff_witness :
    process_changes_batch
        (mkFileSystemObserverConfiguration (.single "/d") [] [] none)
        (fun _ => false) (fun _ => true) {(Change.added, "/d/new.txt")} =
      some (changes_to_process
        (mkFileSystemObserverConfiguration (.single "/d") [] [] none)
        (fun _ => false) (fun _ => true) {(Change.added, "/d/new.txt")}) :=
  (process_changes_dispatch_iff _ _ _ _).2.1 (by decide)

/-- Claim C8: the configuration constructor normalizes a single path into a
one-element directory list, and keeps a sequence of paths as-is, in order. -/
theorem configuration_normalizes_directories (p : String) (ps : List String)
    (incl excl : List String) (lock : Option String) :
    (mkFileSystemObserverConfiguration (.single p) incl excl lock).directories_to_observe = [p]
    ∧ (mkFileSystemObserverConfiguration (.several ps) incl excl lock).directories_to_observe = ps :=
  ⟨rfl, rfl⟩

/-! ## Theorems about the registry -/

/-- Claim C3: a register-then-get round-trip. Registering without an alias
leaves the alias map untouched and the returned identifier retrieves the
stored object; registering with a (truthy) alias lets both the returned
identifier and the alias retrieve that same object. The hypothesis says the
generated UUID string is not already an alias key (UUID freshness). -/
theorem register_get_roundtrip {α : Type} (st : RegistryState α)
    (newId : String) (d : α)
    (hfresh : lookupA st.aliases newId = none) :
    (get_data (register_data st newId d none).2 (register_data st newId d none).1 = some d
      ∧ (register_data st newId d none).2.aliases = st.aliases)
    ∧ ∀ a : String, a ≠ "" →
        get_data (register_data st newId d (some a)).2 (register_data st newId d (some a)).1 = some d
        ∧ get_data (register_data st newId d (some a)).2 a = some d := by
  refine ⟨⟨?_, ?_⟩, ?_⟩
  · simp [register_data, truthyStr, get_data, hfresh, lookupA]
  · simp [register_data, truthyStr]
  · intro a ha
    have hne : a.isEmpty = false := by
      cases hIsE : a.isEmpty with
      | false => rfl
      | true => exact absurd ((String.isEmpty_iff a).mp hIsE) ha
    constructor
    · by_cases hIdA : newId = a
      · simp [register_data, truthyStr, hne, get_data, lookupA, hIdA]
      · simp [register_data, truthyStr, hne, get_data, lookupA, hIdA, hfresh]
    · simp [register_data, truthyStr, hne, get_data, lookupA]

/-- Witness for Claim C3: on the empty registry, registering `42` under
identifier `id-1` with alias `myalias` retrieves `42` via the alias. -/
theorem register_get_roundtrip_witness :
    get_data (register_data (⟨[], []⟩ : RegistryState Nat) "id-1" 42 (some "myalias")).2
        "myalias" = some 42 :=
  ((register_get_roundtrip (⟨[], []⟩ : RegistryState Nat) "id-1" 42 rfl).2
    "myalias" (by decide)).2

/-- Claim C6: `get_data` on a string that is neither a registered identifier
nor a registered alias yields the `KeyError` (modelled as `none`); the lookup
reads but never writes the two dictionaries, so the state is unchanged by
construction (`get_data` is a pure function of the state). -/
theorem get_data_unknown_key {α : Type} (st : RegistryState α) (s : String)
    (hA : lookupA st.aliases s = none) (hD : lookupA st.data s = none) :
    get_data st s = none := by
  simp [get_data, hA, hD]

/-- Witness for Claim C6: looking up `missing` in a registry holding one
entry and one alias yields `none`. -/
theorem get_data_unknown_key_witness :
    get_data (⟨[("k", 7)], [("al", "k")]⟩ : RegistryState Nat) "missing" = none :=
  get_data_unknown_key _ _ (by decide) (by decide)

/-- Claim C7: registering a second object under the same alias silently
redirects the alias to the second identifier — `get_data` on the alias now
yields the second object — while the first identifier still retrieves the
first object. Hypotheses: the two generated UUIDs differ, the first UUID is
not the alias string nor a pre-existing alias key, and the alias is truthy. -/
theorem alias_overwrite {α : Type} (st : RegistryState α)
    (id1 id2 a : String) (o1 o2 : α)
    (hobj : o1 ≠ o2) (hids : id1 ≠ id2) (hid1a : id1 ≠ a)
    (hfresh : lookupA st.aliases id1 = none) (ha : a ≠ "") :
    get_data (register_data (register_data st id1 o1 (some a)).2 id2 o2 (some a)).2 a = some o2
    ∧ get_data (register_data (register_data st id1 o1 (some a)).2 id2 o2 (some a)).2
        (register_data st id1 o1 (some a)).1 = some o1 := by
  have hne : a.isEmpty = false := by
    cases hIsE : a.isEmpty with
    | false => rfl
    | true => exact absurd ((String.isEmpty_iff a).mp hIsE) ha
  constructor
  · simp [register_data, truthyStr, hne, get_data, lookupA, hids.symm]
  · simp [register_data, truthyStr, hne, get_data, lookupA, hid1a, hfresh, hids]

/-- Witness for Claim C7: registering `1` then `2` under alias `al` makes the
alias resolve to `2` while the first identifier still resolves to `1`. -/
theorem alias_overwrite_witness :
    get_data (register_data (register_data (⟨[], []⟩ : RegistryState Nat)
        "id-1" 1 (some "al")).2 "id-2" 2 (some "al")).2 "al" = some 2
    ∧ get_data (register_data (register_data (⟨[], []⟩ : RegistryState Nat)
        "id-1" 1 (some "al")).2 "id-2" 2 (some "al")).2
        (register_data (⟨[], []⟩ : RegistryState Nat) "id-1" 1 (some "al")).1 = some 1 :=
  alias_overwrite (⟨[], []⟩ : RegistryState Nat) "id-1" "id-2" "al" 1 2
    (by decide) (by decide) (by decide) rfl (by decide)

/-- Claim C10: alias resolution takes precedence over direct identifier
lookup in `get_data`: when a string is simultaneously an alias (mapping to
`i`, which stores `oi`) and a data key (storing `os ≠ oi`), `get_data`
returns `oi`, not `os`. -/
theorem alias_precedence {α : Type} (st : RegistryState α)
    (s i : String) (oi os : α)
    (hA : lookupA st.aliases s = some i) (hDi : lookupA st.data i = some oi)
    (hDs : lookupA st.data s = some os) (hne : os ≠ oi) :
    get_data st s = some oi ∧ get_data st s ≠ some os := by
  have hget : get_data st s = some oi := by simp [get_data, hA, hDi]
  refine ⟨hget, ?_⟩
  rw [hget]
  intro hcontra
  exact hne (Option.some_injective α hcontra).symm

/-- Witness for Claim C10: in a registry where `k` stores `1` directly and is
also an alias for `t` (which stores `2`), `get_data` on `k` yields `2`. -/
theorem alias_precedence_witness :
    get_data (⟨[("k", 1), ("t", 2)], [("k", "t")]⟩ : RegistryState Nat) "k" = some 2
    ∧ get_data (⟨[("k", 1), ("t", 2)], [("k", "t")]⟩ : RegistryState Nat) "k" ≠ some 1 :=
  alias_precedence _ "k" "t" 2 1 (by decide) (by decide) (by decide) (by decide)

/-! ## Theorems about `copy_file` -/

/-- Claim C9: `copy_file` raises `FileNotFoundError` when the source is
missing, `FileExistsError` when the destination exists and `overwrite` is
false, and otherwise performs the copy (destination now holds the source
content, everything else untouched); each error is surfaced to the caller
unchanged — the embedding has no retry or recovery path. -/
theorem copy_file_error_semantics (fs : String → Option String)
    (source_path destination_path : String) (overwrite : Bool) :
    (fs source_path = none →
      copy_file fs source_path destination_path overwrite = .error .fileNotFoundError)
    ∧ (∀ c, fs source_path = some c → (fs destination_path).isSome → overwrite = false →
        copy_file fs source_path destination_path overwrite = .error .fileExistsError)
    ∧ (∀ c, fs source_path = some c →
        (fs destination_path = none ∨ overwrite = true) →
        copy_file fs source_path destination_path overwrite =
          .ok (fun p => if p = destination_path then some c else fs p)) := by
  refine ⟨?_, ?_, ?_⟩
  · intro h
    simp [copy_file, h]
  · intro c hsrc hdst how
    simp [copy_file, hsrc, hdst, how]
  · intro c hsrc hok
    rcases hok with hdst | how
    · simp [copy_file, hsrc, hdst]
    · simp [copy_file, hsrc, how]

/-- Witness for Claim C9: on a filesystem holding only `/a`, copying the
missing `/x` fails with `FileNotFoundError`, and copying `/a` onto the
existing `/a` without `overwrite` fails with `FileExistsError`. -/
theorem copy_file_error_semantics_witness :
    copy_file (fun p => if p = "/a" then some "hi" else none) "/x" "/b" false =
      .error .fileNotFoundError
    ∧ copy_file (fun p => if p = "/a" then some "hi" else none) "/a" "/a" false =
      .error .fileExistsError :=
  ⟨(copy_file_error_semantics (fun p => if p = "/a" then some "hi" else none)
      "/x" "/b" false).1 (by decide),
   (copy_file_error_semantics (fun p => if p = "/a" then some "hi" else none)
      "/a" "/a" false).2.1 "hi" (by decide) (by decide) rfl⟩

end Foundation
